import Mathlib

/-!
Verification of the watch-tower storage layer (Redis adapter and DB
facade) as a shallow embedding.  Pure data and control paths of
`src/services/redis-storage.ts` and the DB facade are translated into
executable Lean definitions; the network store is modelled as a partial
map from keys to string values and the Redis client's transport outcomes
as explicit `Except` values.
-/

namespace WatchTower

/-- The contents of the physical remote key/value store. -/
def Store := String → Option String

/-- A store with no keys written. -/
def emptyStore : Store := fun _ => none

/-- Effect of a Redis `SET key value` on the store contents. -/
def setKey (s : Store) (k v : String) : Store :=
  fun q => if q = k then some v else s q

/-- Effect of a Redis `DEL key` on the store contents. -/
def delKey (s : Store) (k : String) : Store :=
  fun q => if q = k then none else s q

/-- A `RedisDBService` instance; `keyPrefix` is the instance field
holding the namespace string (the source initialises it with the
constant `"cryptoswap:watch-tower:"`). -/
structure RedisService where
  keyPrefix : String
deriving DecidableEq

/-- The concrete service the source constructs: its `keyPrefix` constant. -/
def watchTower : RedisService := ⟨"cryptoswap:watch-tower:"⟩

/-- `prefixKey` from `redis-storage.ts`: prepend the namespace string. -/
def prefixKey (svc : RedisService) (key : String) : String :=
  svc.keyPrefix ++ key

/-- Substring check on character lists (JS `String.prototype.includes`). -/
def charsContains (pat : List Char) : List Char → Bool
  | [] => pat.isEmpty
  | c :: rest => pat.isPrefixOf (c :: rest) || charsContains pat rest

/-- `msg.includes(pat)` from the error classification in `get`. -/
def msgContains (msg pat : String) : Bool :=
  charsContains pat.data msg.data

/-- The message thrown by `get` when the client returns `null`. -/
def notFoundMsg (key : String) : String :=
  "Key not found: " ++ key

/-- The wrapper text prepended by the `get` catch block. -/
def opErrorHead (key : String) : String :=
  "Redis get error for key " ++ key ++ ": "

/-- The full wrapped message thrown by the `get` catch block. -/
def opErrorMsg (key msg : String) : String :=
  opErrorHead key ++ msg

/-- True when an error message is classified as key absence (the source
classifies by the substring "Key not found"). -/
def isNotFoundError (e : String) : Bool :=
  msgContains e "Key not found"

/-- True when an error message has the shape produced by the `get`
catch block for operation failures on `key`. -/
def isOpErrorFor (key e : String) : Bool :=
  (opErrorHead key).data.isPrefixOf e.data

/-- The catch block of `RedisDB.get`: re-raise messages containing
"Key not found" unchanged, wrap everything else. -/
def catchGetError (key msg : String) : String :=
  if msgContains msg "Key not found" then msg else opErrorMsg key msg

/-- `RedisDB.get` given the underlying client outcome for the prefixed
key: `.ok (some v)` — value present, `.ok none` — client returned
`null`, `.error m` — the client call threw with message `m`. -/
def redisGet (key : String) (clientResult : Except String (Option String)) :
    Except String String :=
  match clientResult with
  | .ok (some v) => .ok v
  | .ok none => .error (catchGetError key (notFoundMsg key))
  | .error msg => .error (catchGetError key msg)

/-- `get` through a service whose client reads the given store. -/
def svcGet (svc : RedisService) (s : Store) (key : String) :
    Except String String :=
  redisGet key (.ok (s (prefixKey svc key)))

/-- A buffered batch operation (the `{type, key, value}` records). -/
inductive BatchOp where
  | put (key value : String)
  | del (key : String)
deriving DecidableEq

/-- The key an operation affects. -/
def BatchOp.opKey : BatchOp → String
  | .put k _ => k
  | .del k => k

/-- Effect of one buffered operation on the store, as issued by the
`write` loop (the key is prefixed before the pipeline call). -/
def applyOp (svc : RedisService) (s : Store) (op : BatchOp) : Store :=
  match op with
  | .put k v => setKey s (prefixKey svc k) v
  | .del k => delKey s (prefixKey svc k)

/-- Effect of the whole `write` loop: operations applied in buffer order. -/
def applyOps (svc : RedisService) (ops : List BatchOp) (s : Store) : Store :=
  ops.foldl (applyOp svc)  s

/-- A `RedisBatch` builder: its private `operations` buffer. -/
structure Batch where
  ops : List BatchOp
deriving DecidableEq

/-- A freshly created builder (empty buffer). -/
def Batch.empty : Batch := ⟨[]⟩

/-- `batch.put(key, value)`: append to the buffer. -/
def batchPut (b : Batch) (k v : String) : Batch :=
  ⟨b.ops ++ [.put k v]⟩

/-- `batch.del(key)`: append to the buffer. -/
def batchDel (b : Batch) (k : String) : Batch :=
  ⟨b.ops ++ [.del k]⟩

/-- `batch.write()`: on an empty buffer return at once without building
a pipeline; otherwise apply every buffered operation in order through
one pipeline and clear the buffer.  The boolean records whether a
pipeline was constructed and executed. -/
def batchWrite (svc : RedisService) (b : Batch) (s : Store) :
    Batch × Store × Bool :=
  if b.ops.isEmpty then (b, s, false)
  else (⟨[]⟩, applyOps svc b.ops s, true)

/-- The fatal message thrown by `retryStrategy` once the attempt count
exceeds 3. -/
def retryMsg (times : Nat) : String :=
  "[Redis] Could not connect after " ++ toString times ++ " attempts"

/-- The `retryStrategy` option from the Redis client configuration:
`times` is the index of the failed attempt; it yields the backoff delay
in milliseconds, or throws once `times` exceeds 3. -/
def retryStrategy (times : Nat) : Except String Nat :=
  if times > 3 then .error (retryMsg times)
  else .ok (min (times * 200) 1000)

/-- Result of the connection-establishment loop. -/
inductive ConnectResult where
  | ready (attempt : Nat)
  | fatal (msg : String)
deriving DecidableEq

/-- The client's connection loop driven by `retryStrategy` (standard
retry semantics of the underlying client library, as the spec describes
them): attempt `attempt`; on success the backend is Ready; on failure
consult `retryStrategy attempt` — a delay means wait and retry, a throw
is fatal. -/
def connectFrom (outcome : Nat → Bool) (attempt : Nat) : ConnectResult :=
  if outcome attempt then .ready attempt
  else
    match h : retryStrategy attempt with
    | .error msg => .fatal msg
    | .ok _delay => connectFrom outcome (attempt + 1)
termination_by 4 - attempt
decreasing_by
  have hle : ¬ attempt > 3 := by
    intro hgt
    simp [retryStrategy, hgt] at h
  omega

/-- Connection establishment starting from the first attempt. -/
def connect (outcome : Nat → Bool) : ConnectResult :=
  connectFrom outcome 1

/-- One network command sent to the remote store. -/
inductive NetCmd where
  | get (key : String)
  | set (key value : String)
  | del (key : String)
deriving DecidableEq

/-- The key carried by a network command. -/
def NetCmd.cmdKey : NetCmd → String
  | .get k => k
  | .set k _ => k
  | .del k => k

/-- The network commands a `get(key)` call issues. -/
def getNetCmds (svc : RedisService) (key : String) : List NetCmd :=
  [.get (prefixKey svc key)]

/-- The network commands `write()` queues on the pipeline, in buffer
order, mirroring the loop body of `write`. -/
def writeNetCmds (svc : RedisService) (ops : List BatchOp) : List NetCmd :=
  ops.map fun op =>
    match op with
    | .put k v => .set (prefixKey svc k) v
    | .del k => .del (prefixKey svc k)

/-- The mutable connection state of a `RedisDBService` (`isConnected`
is set by the client's ready/close events). -/
structure RedisConn where
  isConnected : Bool
deriving DecidableEq

/-- `RedisDBService.close`: quit only when connected (the close event
then resets `isConnected`).  The boolean records whether `quit()` — the
release action on the underlying connection — was invoked. -/
def redisClose (c : RedisConn) : RedisConn × Bool :=
  if c.isConnected then ({ isConnected := false }, true) else (c, false)

/-- The `RedisConfig` the facade resolves (host, optional port,
optional password). -/
structure RedisConfig where
  host : String
  port : Option Nat
  password : Option String
deriving DecidableEq

/-- The constructor parameters of `DBService` (all optional). -/
structure DBConfig where
  path : Option String
  storageType : Option String
  redisConfig : Option RedisConfig
deriving DecidableEq

/-- The environment variables the facade consults. -/
structure Env where
  STORAGE_TYPE : Option String
  REDIS_HOST : Option String
  REDIS_PORT : Option String
  REDIS_PASSWORD : Option String
deriving DecidableEq

/-- JS `a || b` on an optional string: `b` when `a` is undefined or
empty (falsy). -/
def jsOr (a b : Option String) : Option String :=
  match a with
  | some s => if s = "" then b else some s
  | none => b

/-- JS `a || d` with a string literal default. -/
def strOr (a : Option String) (d : String) : String :=
  match a with
  | some s => if s = "" then d else s
  | none => d

/-- `storageType || process.env.STORAGE_TYPE || "leveldb"` from the
`DBService` constructor. -/
def resolveStorageType (param env : Option String) : String :=
  strOr (jsOr param env) "leveldb"

/-- `process.env.REDIS_PORT ? Number(process.env.REDIS_PORT) : 6379`;
numeric parsing is modelled for decimal strings (`Number` on other
strings is outside the claims). -/
def parsePort (env : Option String) : Nat :=
  match env with
  | some s => if s = "" then 6379 else (s.toNat?.getD 0)
  | none => 6379

/-- The `RedisConfig` the facade passes to the Redis service: the
explicit parameter, or the environment-derived defaults. -/
def resolveRedisConfig (param : Option RedisConfig) (env : Env) : RedisConfig :=
  match param with
  | some c => c
  | none =>
    { host := strOr env.REDIS_HOST "localhost"
      port := some (parsePort env.REDIS_PORT)
      password := env.REDIS_PASSWORD }

/-- The backend a `DBService` holds after construction. -/
inductive Backend where
  | level (path : String)
  | redis (cfg : RedisConfig)
deriving DecidableEq

/-- The default LevelDB location. -/
def DEFAULT_DB_LOCATION : String := "./database"

/-- The state a `DBService` instance carries after its constructor ran. -/
structure DBServiceModel where
  storageType : String
  backend : Backend
deriving DecidableEq

/-- The `DBService` constructor: resolve the storage type, then build
either the Redis backend from the resolved `RedisConfig` or the
LevelDB backend at `path || DEFAULT_DB_LOCATION`. -/
def mkDBService (cfg : DBConfig) (env : Env) : DBServiceModel :=
  let st := resolveStorageType cfg.storageType env.STORAGE_TYPE
  if st = "redis" then
    { storageType := st, backend := .redis (resolveRedisConfig cfg.redisConfig env) }
  else
    { storageType := st, backend := .level (strOr cfg.path DEFAULT_DB_LOCATION) }

/-- `DBService.getInstance`: return the stored instance when present,
otherwise construct one and store it.  The boolean records whether the
constructor ran. -/
def getInstance (inst : Option DBServiceModel) (cfg : DBConfig) (env : Env) :
    DBServiceModel × Option DBServiceModel × Bool :=
  match inst with
  | some s => (s, some s, false)
  | none =>
    let s := mkDBService cfg env
    (s, some s, true)

/-- A sequence of `getInstance` calls threaded through the static
`_instance` field; each result pairs the returned instance with
whether that call constructed a new one. -/
def runGetInstances (inst : Option DBServiceModel) :
    List (DBConfig × Env) → List (DBServiceModel × Bool)
  | [] => []
  | (cfg, env) :: rest =>
    let r := getInstance inst cfg env
    (r.1, r.2.2) :: runGetInstances r.2.1 rest

/-! Helper lemmas shared by the claim theorems. -/

lemma strAppend_right_cancel {a b k : String} (h : a ++ k = b ++ k) : a = b := by
  apply String.ext
  have hd := congrArg String.data h
  rw [String.data_append, String.data_append] at hd
  exact List.append_cancel_right hd

lemma strAppend_left_cancel {p a b : String} (h : p ++ a = p ++ b) : a = b := by
  apply String.ext
  have hd := congrArg String.data h
  rw [String.data_append, String.data_append] at hd
  exact List.append_cancel_left hd

lemma prefixKey_ne_of_svc_ne {A B : RedisService} (k : String)
    (h : A.keyPrefix ≠ B.keyPrefix) : prefixKey A k ≠ prefixKey B k :=
  fun he => h (strAppend_right_cancel he)

lemma prefixKey_inj (svc : RedisService) {a b : String}
    (h : prefixKey svc a = prefixKey svc b) : a = b :=
  strAppend_left_cancel h

lemma charsContains_nil_pat : ∀ (l : List Char), charsContains [] l = true
  | [] => rfl
  | _ :: _ => by simp [charsContains, List.isPrefixOf]

lemma isPrefixOf_append_mono (pat l m : List Char) (h : pat.isPrefixOf l = true) :
    pat.isPrefixOf (l ++ m) = true := by
  rw [ List.isPrefixOf_iff_prefix] at h ⊢
  exact h.trans (List.prefix_append l m)

lemma charsContains_append_left (pat l m : List Char)
    (h : charsContains pat l = true) : charsContains pat (l ++ m) = true := by
  induction l with
  | nil =>
    have hp : pat = [] := by simpa [charsContains] using h
    subst hp
    exact charsContains_nil_pat _
  | cons c rest ih =>
    simp only [charsContains, Bool.or_eq_true] at h
    simp only [List.cons_append, charsContains, Bool.or_eq_true]
    cases h with
    | inl h1 =>
      exact Or.inl (by simpa using isPrefixOf_append_mono pat (c :: rest) m h1)
    | inr h2 => exact Or.inr (ih h2)

lemma msgContains_append_left (a k pat : String) (h : msgContains a pat = true) :
    msgContains (a ++ k) pat = true := by
  unfold msgContains at h ⊢
  rw [String.data_append]
  exact charsContains_append_left _ _ _ h

lemma notFoundMsg_contains (k : String) :
    msgContains (notFoundMsg k) "Key not found" = true := by
  unfold notFoundMsg
  exact msgContains_append_left "Key not found: " k "Key not found" (by decide)

lemma notFoundMsg_isNotFound (k : String) : isNotFoundError (notFoundMsg k) = true :=
  notFoundMsg_contains k

lemma opErrorMsg_isOpError (key msg : String) :
    isOpErrorFor key (opErrorMsg key msg) = true := by
  unfold isOpErrorFor opErrorMsg
  rw [String.data_append]
  apply isPrefixOf_append_mono
  rw [ List.isPrefixOf_iff_prefix]

lemma applyOps_append (svc : RedisService) (xs ys : List BatchOp) (s : Store) :
    applyOps svc (xs ++ ys) s = applyOps svc ys (applyOps svc xs s) := by
  unfold applyOps
  exact List.foldl_append _ _ _ _

lemma applyOp_untouched (svc : RedisService) (s : Store) (op : BatchOp) (q : String)
    (h : prefixKey svc op.opKey ≠ q) : applyOp svc s op q = s q := by
  cases op with
  | put k v =>
    show (if q = prefixKey svc k then some v else s q) = s q
    exact if_neg fun he => h he.symm
  | del k =>
    show (if q = prefixKey svc k then none else s q) = s q
    exact if_neg fun he => h he.symm

lemma applyOps_untouched (svc : RedisService) (ops : List BatchOp) (q : String)
    (h : ∀ op ∈ ops, prefixKey svc op.opKey ≠ q) :
    ∀ s : Store, applyOps svc ops s q = s q := by
  induction ops with
  | nil => intro s; rfl
  | cons op rest ih =>
    intro s
    have hstep : applyOps svc (op :: rest) s = applyOps svc rest (applyOp svc s op) := rfl
    rw [hstep, ih (fun o ho => h o (List.mem_cons_of_mem _ ho))]
    exact applyOp_untouched svc s op q (h op (List.mem_cons_self op rest))

lemma connectFrom_ready (outcome : Nat → Bool) (attempt : Nat)
    (h : outcome attempt = true) :
    connectFrom outcome attempt = .ready attempt := by
  unfold connectFrom
  simp [h]

lemma connectFrom_fail_step (outcome : Nat → Bool) (attempt : Nat)
    (hf : outcome attempt = false) (hle : attempt ≤ 3) :
    connectFrom outcome attempt = connectFrom outcome (attempt + 1) := by
  conv_lhs => unfold connectFrom
  rw [if_neg (by simp [hf])]
  split
  · next msg heq =>
    exfalso
    unfold retryStrategy at heq
    rw [if_neg (by omega)] at heq
    cases heq
  · rfl

lemma connectFrom_fatal (outcome : Nat → Bool) (attempt : Nat)
    (hf : outcome attempt = false) (hgt : 3 < attempt) :
    connectFrom outcome attempt = .fatal (retryMsg attempt) := by
  unfold connectFrom
  rw [if_neg (by simp [hf])]
  split
  · next msg heq =>
    unfold retryStrategy at heq
    rw [if_pos hgt] at heq
    injection heq with h2
    rw [h2]
  · next d heq =>
    exfalso
    unfold retryStrategy at heq
    rw [if_pos hgt] at heq
    cases heq

/-! Claim theorems. -/

/-- C1: for every failed connection attempt with index at most 3, the
backoff delay before the next retry equals `min (attempt * 200) 1000`
milliseconds; for every attempt index strictly greater than 3,
`retryStrategy` raises the fatal non-recoverable connection error.  A
backend whose first two attempts fail and whose third succeeds becomes
Ready; one whose first four attempts all fail raises the fatal error
and never becomes Ready. -/
theorem connection_retry_policy (a : Nat) (outS outF : Nat → Bool)
    (hS1 : outS 1 = false) (hS2 : outS 2 = false) (hS3 : outS 3 = true)
    (hF : ∀ i, 1 ≤ i → i ≤ 4 → outF i = false) :
    (a ≤ 3 → retryStrategy a = .ok (min (a * 200) 1000)) ∧
    (3 < a → retryStrategy a = .error (retryMsg a)) ∧
    connect outS = .ready 3 ∧
    connect outF = .fatal (retryMsg 4) ∧
    (∀ n, connect outF ≠ .ready n) := by
  have hfatal : connect outF = .fatal (retryMsg 4) := by
    unfold connect
    rw [connectFrom_fail_step _ _ (hF 1 (by omega) (by omega)) (by omega),
      connectFrom_fail_step _ _ (hF 2 (by omega) (by omega)) (by omega),
      connectFrom_fail_step _ _ (hF 3 (by omega) (by omega)) (by omega)]
    exact connectFrom_fatal _ _ (hF 4 (by omega) (by omega)) (by omega)
  refine ⟨?_, ?_, ?_, hfatal, ?_⟩
  · intro h
    unfold retryStrategy
    rw [if_neg (by omega)]
  · intro h
    unfold retryStrategy
    rw [if_pos h]
  · unfold connect
    rw [connectFrom_fail_step _ _ hS1 (by omega),
      connectFrom_fail_step _ _ hS2 (by omega)]
    exact connectFrom_ready _ _ hS3
  · intro n hc
    rw [hfatal] at hc
    cases hc

/-- Witness for C1 at attempt index 2, an outcome succeeding on the
third attempt, and an always-failing outcome. -/
theorem connection_retry_policy_witness :
    (2 ≤ 3 → retryStrategy 2 = .ok (min (2 * 200) 1000)) ∧
    (3 < 2 → retryStrategy 2 = .error (retryMsg 2)) ∧
    connect (fun i => i == 3) = .ready 3 ∧
    connect (fun _ => false) = .fatal (retryMsg 4) ∧
    (∀ n, connect (fun _ => false) ≠ .ready n) :=
  connection_retry_policy 2 (fun i => i == 3) (fun _ => false)
    (by decide) (by decide) (by decide) (fun _ _ _ => rfl)

/-- C2: every key a `get` issues or a batch `write` queues is sent as
the namespace string followed by the logical key, and a put of `k`
performed under one namespace string is invisible to a `get k` issued
under a different namespace string over the same physical store. -/
theorem namespaced_keys_and_isolation (A B : RedisService) (k v key : String)
    (s : Store) (ops : List BatchOp)
    (hAB : A.keyPrefix ≠ B.keyPrefix) :
    (∀ c ∈ getNetCmds A key, ∃ rest, c.cmdKey = A.keyPrefix ++ rest) ∧
    (∀ c ∈ writeNetCmds A ops, ∃ rest, c.cmdKey = A.keyPrefix ++ rest) ∧
    svcGet B (applyOps A [.put k v] s) k = svcGet B s k := by
  refine ⟨?_, ?_, ?_⟩
  · intro c hc
    simp only [getNetCmds, List.mem_singleton] at hc
    subst hc
    exact ⟨key, rfl⟩
  · intro c hc
    simp only [writeNetCmds, List.mem_map] at hc
    obtain ⟨op, _, rfl⟩ := hc
    cases op with
    | put k2 v2 => exact ⟨k2, rfl⟩
    | del k2 => exact ⟨k2, rfl⟩
  · have hu : applyOps A [.put k v] s (prefixKey B k) = s (prefixKey B k) := by
      apply applyOps_untouched
      intro op hop
      have : op = .put k v := by simpa using hop
      subst this
      exact prefixKey_ne_of_svc_ne k hAB
    unfold svcGet
    rw [hu]

/-- Witness for C2 with the source's namespace string and a second
tenant's namespace string over the empty store. -/
theorem namespaced_keys_and_isolation_witness :
    (∀ c ∈ getNetCmds watchTower "o", ∃ rest, c.cmdKey = watchTower.keyPrefix ++ rest) ∧
    (∀ c ∈ writeNetCmds watchTower [.put "a" "1", .del "b"],
        ∃ rest, c.cmdKey = watchTower.keyPrefix ++ rest) ∧
    svcGet ⟨"tenantB:"⟩ (applyOps watchTower [.put "k" "v"] emptyStore) "k" =
      svcGet ⟨"tenantB:"⟩ emptyStore "k" :=
  namespaced_keys_and_isolation watchTower ⟨"tenantB:"⟩ "k" "v" "o" emptyStore
    [.put "a" "1", .del "b"] (by decide)

/-- Refutes C3 as stated: a transport failure whose message happens to
contain "Key not found" is re-raised unchanged — it is not wrapped into
the operation-error shape; it is classified as key absence instead. -/
theorem get_transport_error_unwrapped_cex :
    redisGet "k" (.error "boom: Key not found") = .error "boom: Key not found" ∧
    isOpErrorFor "k" "boom: Key not found" = false ∧
    isNotFoundError "boom: Key not found" = true :=
  ⟨rfl, by decide, by decide⟩

/-- C3 (amended): `get` returns the stored value when the key is
present, fails with the "Key not found" error when it is absent (in
particular on a store with no keys written), and wraps a transport
failure into an operation error naming the key — provided the
transport failure's message does not itself contain "Key not found". -/
theorem get_error_taxonomy (svc : RedisService) (s : Store) (k v m : String) :
    (s (prefixKey svc k) = some v → svcGet svc s k = .ok v) ∧
    (s (prefixKey svc k) = none →
        svcGet svc s k = .error (notFoundMsg k) ∧
        isNotFoundError (notFoundMsg k) = true) ∧
    svcGet svc emptyStore k = .error (notFoundMsg k) ∧
    (isNotFoundError m = false →
        redisGet k (.error m) = .error (opErrorMsg k m) ∧
        isOpErrorFor k (opErrorMsg k m) = true) := by
  have habsent : ∀ st : Store, st (prefixKey svc k) = none →
      svcGet svc st k = .error (notFoundMsg k) := by
    intro st h
    unfold svcGet
    rw [h]
    show Except.error (catchGetError k (notFoundMsg k)) = _
    unfold catchGetError
    rw [if_pos (notFoundMsg_contains k)]
  refine ⟨?_, ?_, ?_, ?_⟩
  · intro h
    unfold svcGet
    rw [h]
    rfl
  · intro h
    exact ⟨habsent s h, notFoundMsg_isNotFound k⟩
  · exact habsent emptyStore rfl
  · intro h
    refine ⟨?_, opErrorMsg_isOpError k m⟩
    show Except.error (catchGetError k m) = _
    unfold catchGetError
    rw [if_neg (by simp [isNotFoundError] at h; simp [h])]

/-- Witness for C3 (amended) on a one-key store, the empty store, and a
plain transport failure. -/
theorem get_error_taxonomy_witness :
    svcGet watchTower (setKey emptyStore (prefixKey watchTower "a") "1") "a" = .ok "1" ∧
    svcGet watchTower emptyStore "a" = .error (notFoundMsg "a") ∧
    redisGet "a" (.error "ECONNRESET") = .error (opErrorMsg "a" "ECONNRESET") :=
  ⟨(get_error_taxonomy watchTower (setKey emptyStore (prefixKey watchTower "a") "1")
      "a" "1" "ECONNRESET").1 (by decide),
   (get_error_taxonomy watchTower emptyStore "a" "1" "ECONNRESET").2.2.1,
   ((get_error_taxonomy watchTower emptyStore "a" "1" "ECONNRESET").2.2.2 (by decide)).1⟩

/-- C4: `write()` applies the buffered operations in order, so the last
operation affecting a key wins: in a batch containing `put k v1`
followed later by `put k v2` where no later operation affects `k`,
after `write()` a `get k` returns `v2`. -/
theorem batch_last_write_wins (svc : RedisService) (s : Store)
    (l1 l2 l3 : List BatchOp) (k v1 v2 : String)
    (h3 : ∀ op ∈ l3, op.opKey ≠ k) :
    svcGet svc
      (batchWrite svc ⟨l1 ++ [.put k v1] ++ l2 ++ [.put k v2] ++ l3⟩ s).2.1 k =
      .ok v2 := by
  have hsw : (batchWrite svc ⟨l1 ++ [.put k v1] ++ l2 ++ [.put k v2] ++ l3⟩ s).2.1 =
      applyOps svc (l1 ++ [.put k v1] ++ l2 ++ [.put k v2] ++ l3) s := by
    unfold batchWrite
    rw [if_neg (by simp)]
  unfold svcGet
  rw [hsw, applyOps_append, applyOps_append, applyOps_append, applyOps_append]
  rw [applyOps_untouched svc l3 (prefixKey svc k)
    (fun op hop heq => h3 op hop (prefixKey_inj svc heq)) _]
  show redisGet k (.ok (setKey _ (prefixKey svc k) v2 (prefixKey svc k))) = _
  unfold setKey
  rw [if_pos rfl]
  rfl

/-- Witness for C4: a batch putting `k` twice with unrelated operations
interleaved and a later delete of a different key. -/
theorem batch_last_write_wins_witness :
    svcGet watchTower
      (batchWrite watchTower
        ⟨[] ++ [.put "k" "1"] ++ [.put "o" "x"] ++ [.put "k" "2"] ++ [.del "z"]⟩
        emptyStore).2.1 "k" = .ok "2" :=
  batch_last_write_wins watchTower emptyStore [] [.put "o" "x"] [.del "z"]
    "k" "1" "2" (by decide)

/-- C5: after any `write()` the builder's buffer is empty, and reusing
the builder for a subsequent batch behaves exactly like a fresh
builder. -/
theorem batch_write_clears_buffer (svc : RedisService) (b : Batch)
    (s s2 : Store) (k v : String) :
    ((batchWrite svc b s).1).ops = [] ∧
    batchWrite svc (batchPut (batchWrite svc b s).1 k v) s2 =
      batchWrite svc (batchPut Batch.empty k v) s2 := by
  have h1 : (batchWrite svc b s).1 = Batch.empty := by
    unfold batchWrite
    by_cases hb : b.ops.isEmpty = true
    · rw [if_pos hb]
      cases b with
      | mk ops =>
        cases ops with
        | nil => rfl
        | cons x xs => simp [List.isEmpty] at hb
    · rw [if_neg hb]
      rfl
  exact ⟨by rw [h1]; rfl, by rw [h1]⟩

/-- C6: `close()` while not connected performs no release action on the
connection and leaves the state unchanged; in particular a second
`close()` right after any `close()` is such a no-op. -/
theorem close_idempotent_noop (c c2 : RedisConn) (h : c.isConnected = false) :
    redisClose c = (c, false) ∧
    redisClose (redisClose c2).1 = ((redisClose c2).1, false) := by
  have hnc : ∀ c' : RedisConn, c'.isConnected = false → redisClose c' = (c', false) := by
    intro c' h'
    unfold redisClose
    rw [h']
    rfl
  have h2 : (redisClose c2).1.isConnected = false := by
    unfold redisClose
    by_cases hc : c2.isConnected = true
    · rw [if_pos hc]
    · rw [if_neg hc]
      simpa using hc
  exact ⟨hnc c h, hnc _ h2⟩

/-- Witness for C6: a disconnected backend, and a connected backend
closed twice. -/
theorem close_idempotent_noop_witness :
    redisClose ⟨false⟩ = (⟨false⟩, false) ∧
    redisClose (redisClose ⟨true⟩).1 = ((redisClose ⟨true⟩).1, false) :=
  close_idempotent_noop ⟨false⟩ ⟨true⟩ rfl

lemma runGetInstances_some (s : DBServiceModel) (reqs : List (DBConfig × Env)) :
    runGetInstances (some s) reqs = reqs.map (fun _ => (s, false)) := by
  induction reqs with
  | nil => rfl
  | cons r rest ih =>
    cases r with
    | mk cfg env => simp [runGetInstances, getInstance, ih]

/-- C7: starting from no stored instance, the first `getInstance` call
constructs the service and every later call returns that same instance
without running the constructor again. -/
theorem getInstance_singleton (cfg : DBConfig) (env : Env)
    (rest : List (DBConfig × Env)) :
    runGetInstances none ((cfg, env) :: rest) =
      (mkDBService cfg env, true) ::
        rest.map (fun _ => (mkDBService cfg env, false)) := by
  show (mkDBService cfg env, true) ::
      runGetInstances (some (mkDBService cfg env)) rest = _
  rw [runGetInstances_some]

/-- C8: construction selects exactly one backend from the parameter or
environment flag: whenever the resolved flag is anything other than
"redis" — in particular when both flag sources are absent — the
embedded LevelDB backend is chosen; the Redis backend is chosen exactly
when the resolved flag is "redis", configured from the resolved
`RedisConfig`, whose port defaults to 6379 and whose credential is the
optional environment password. -/
theorem backend_selection (cfg : DBConfig) (env : Env) (rc : RedisConfig) :
    (resolveStorageType cfg.storageType env.STORAGE_TYPE ≠ "redis" →
        (mkDBService cfg env).backend = .level (strOr cfg.path DEFAULT_DB_LOCATION)) ∧
    (cfg.storageType = none → env.STORAGE_TYPE = none →
        (mkDBService cfg env).backend = .level (strOr cfg.path DEFAULT_DB_LOCATION)) ∧
    ((mkDBService cfg env).backend = .redis rc →
        resolveStorageType cfg.storageType env.STORAGE_TYPE = "redis" ∧
        rc = resolveRedisConfig cfg.redisConfig env) ∧
    (resolveStorageType cfg.storageType env.STORAGE_TYPE = "redis" →
        (mkDBService cfg env).backend = .redis (resolveRedisConfig cfg.redisConfig env)) ∧
    (cfg.redisConfig = none → env.REDIS_PORT = none →
        resolveRedisConfig cfg.redisConfig env =
          { host := strOr env.REDIS_HOST "localhost"
            port := some 6379
            password := env.REDIS_PASSWORD }) := by
  have hlevel : resolveStorageType cfg.storageType env.STORAGE_TYPE ≠ "redis" →
      (mkDBService cfg env).backend = .level (strOr cfg.path DEFAULT_DB_LOCATION) := by
    intro h
    unfold mkDBService
    rw [if_neg h]
  refine ⟨hlevel, ?_, ?_, ?_, ?_⟩
  · intro h1 h2
    apply hlevel
    rw [h1, h2]
    decide
  · intro h
    unfold mkDBService at h
    by_cases hst : resolveStorageType cfg.storageType env.STORAGE_TYPE = "redis"
    · rw [if_pos hst] at h
      injection h with h2
      exact ⟨hst, h2.symm⟩
    · rw [if_neg hst] at h
      cases h
  · intro h
    unfold mkDBService
    rw [if_pos h]
  · intro h1 h2
    rw [h1]
    unfold resolveRedisConfig parsePort
    rw [h2]

/-- Witness for C8: no flags at all select LevelDB at the default
location; an explicit "redis" parameter with host and password in the
environment selects Redis with the 6379 default port. -/
theorem backend_selection_witness :
    (mkDBService ⟨none, none, none⟩ ⟨none, none, none, none⟩).backend =
      .level DEFAULT_DB_LOCATION ∧
    (mkDBService ⟨none, some "redis", none⟩ ⟨none, some "h", none, some "pw"⟩).backend =
      .redis { host := "h", port := some 6379, password := some "pw" } := by
  constructor
  · exact (backend_selection ⟨none, none, none⟩ ⟨none, none, none, none⟩
      ⟨"h", none, none⟩).1 (by decide)
  · have h := backend_selection ⟨none, some "redis", none⟩
      ⟨none, some "h", none, some "pw"⟩ ⟨"h", none, none⟩
    have h4 := h.2.2.2.1 (by decide)
    have h5 := h.2.2.2.2 rfl rfl
    rw [h4, h5]
    rfl

/-- C9: `write()` on an empty buffer returns at once — no pipeline is
constructed, the store is unchanged, and the builder is unchanged. -/
theorem empty_batch_write_noop (svc : RedisService) (b : Batch) (s : Store)
    (h : b.ops = []) : batchWrite svc b s = (b, s, false) := by
  unfold batchWrite
  rw [if_pos (by rw [h]; rfl)]

/-- Witness for C9 on a fresh builder over the empty store. -/
theorem empty_batch_write_noop_witness :
    batchWrite watchTower Batch.empty emptyStore = (Batch.empty, emptyStore, false) :=
  empty_batch_write_noop watchTower Batch.empty emptyStore rfl

/-- C10: in `get`, an underlying error is re-raised unchanged exactly
when its message contains "Key not found" (and is then classified as
key absence); every other error is wrapped into a message naming the
get operation and the offending key. -/
theorem get_error_classification (key msg : String) :
    (msgContains msg "Key not found" = true →
        redisGet key (.error msg) = .error msg ∧ isNotFoundError msg = true) ∧
    (msgContains msg "Key not found" = false →
        redisGet key (.error msg) = .error (opErrorMsg key msg) ∧
        isOpErrorFor key (opErrorMsg key msg) = true) ∧
    (redisGet key (.error msg) = .error msg ↔
        msgContains msg "Key not found" = true) := by
  have hlen : opErrorMsg key msg ≠ msg := by
    intro he
    have hl := congrArg String.length he
    rw [opErrorMsg, String.length_append, opErrorHead, String.length_append,
      String.length_append] at hl
    have hR : ("Redis get error for key " : String).length = 24 := rfl
    have hC : (": " : String).length = 2 := rfl
    rw [hR, hC] at hl
    omega
  have hwrap : msgContains msg "Key not found" = false →
      redisGet key (.error msg) = .error (opErrorMsg key msg) := by
    intro h
    show Except.error (catchGetError key msg) = _
    unfold catchGetError
    rw [if_neg (by rw [h]; exact Bool.false_ne_true)]
  have hraise : msgContains msg "Key not found" = true →
      redisGet key (.error msg) = .error msg := by
    intro h
    show Except.error (catchGetError key msg) = _
    unfold catchGetError
    rw [if_pos h]
  refine ⟨fun h => ⟨hraise h, h⟩, fun h => ⟨hwrap h, opErrorMsg_isOpError key msg⟩, ?_, ?_⟩
  · intro he
    by_cases h : msgContains msg "Key not found" = true
    · exact h
    · exfalso
      rw [Bool.not_eq_true] at h
      rw [hwrap h] at he
      injection he with he2
      exact hlen he2
  · exact hraise

/-- Witness for C10: a message carrying the marker is re-raised
unchanged; a plain transport message is wrapped. -/
theorem get_error_classification_witness :
    redisGet "k" (.error "Key not found: k") = .error "Key not found: k" ∧
    redisGet "k" (.error "ECONNRESET") = .error (opErrorMsg "k" "ECONNRESET") :=
  ⟨((get_error_classification "k" "Key not found: k").1 (by decide)).1,
   ((get_error_classification "k" "ECONNRESET").2.1 (by decide)).1⟩

end WatchTower
